import Mathlib

/-
Verification of the gutter-api result-to-estimate core (src/app/main.py,
`get_results`, lines 105-158): measurement extraction from a provider JSON
payload and the pricing pipeline producing an itemized estimate.

Python floats are modelled by ℚ; `round(x, n)` is modelled as round-half-up
on exact rationals (`round` from Mathlib). None of the concrete values in
the claims fall on a rounding tie, so the tie-breaking convention is
irrelevant to every statement proved here.
-/

namespace GutterAPI

/-- A JSON-like value, as produced by `r.json()` in the Python source.
Objects are association lists of string keys. -/
inductive Json where
  | null
  | bool (b : Bool)
  | num (q : ℚ)
  | str (s : String)
  | arr (elems : List Json)
  | obj (fields : List (String × Json))

/-- Python truthiness of a JSON value: `None`, `False`, `0`, `""`, `[]`,
`{}` are falsy, everything else truthy. -/
def Json.truthy : Json → Bool
  | .null => false
  | .bool b => b
  | .num q => q != 0
  | .str s => s != ""
  | .arr xs => !xs.isEmpty
  | .obj fs => !fs.isEmpty

/-- Python `a or b`: returns `a` when truthy, else `b`. -/
def pyOr (a b : Json) : Json := if a.truthy then a else b

/-- Python `d.get(k, default)` on a JSON value. On a non-object Python
would raise AttributeError; the total model returns the default there and
the checked model (`Json.dictGet`) returns `none`. -/
def Json.getD (j : Json) (k : String) (d : Json) : Json :=
  match j with
  | .obj fs => ((fs.lookup k).getD d)
  | _ => d

/-- Python `d.values()` on a JSON object (empty list on non-objects; the
checked model rejects non-objects). -/
def Json.values : Json → List Json
  | .obj fs => fs.map Prod.snd
  | _ => []

/-- The `totals` dict built at main.py lines 106-113: the normalized
measurement record, fields still holding raw (coalesced) JSON values. -/
structure MeasurementRecord where
  eave_linear_ft : Json
  downspouts : Json
  miters_inside : Json
  miters_outside : Json
  stories_by_direction : Json
  pdf_url : Json

/-- Measurement extraction, main.py lines 105-113:
`gutter = data.get("gutterReport", \x7b\x7d) or \x7b\x7d` followed by the
`gutter.get(...) or default` chain for each field. -/
def extract (data : Json) : MeasurementRecord :=
  let gutter := pyOr (data.getD "gutterReport" (Json.obj [])) (Json.obj [])
  { eave_linear_ft := pyOr (gutter.getD "totalEaveLengthFt" Json.null) (Json.num 0)
    downspouts := pyOr (gutter.getD "estimatedDownspouts" Json.null) (Json.num 0)
    miters_inside :=
      pyOr ((pyOr (gutter.getD "miterCount" Json.null) (Json.obj [])).getD "inside90" Json.null)
        (Json.num 0)
    miters_outside :=
      pyOr ((pyOr (gutter.getD "miterCount" Json.null) (Json.obj [])).getD "outside90" Json.null)
        (Json.num 0)
    stories_by_direction := pyOr (gutter.getD "storiesByDirection" Json.null) (Json.obj [])
    pdf_url := (pyOr (gutter.getD "assets" Json.null) (Json.obj [])).getD "pdfUrl" Json.null }

/-- The pricing dict of main.py lines 116-126, as a configuration record
(the pricing pipeline is deterministic arithmetic over these rates). -/
structure PricingConfig where
  price_per_ft : ℚ
  labor_per_ft : ℚ
  downspout_each : ℚ
  miter_each : ℚ
  pitch_multiplier : ℚ
  story_multiplier : ℚ
  overhead_pct : ℚ
  profit_pct : ℚ
  sales_tax_pct : ℚ

/-- The literal pricing constants of main.py lines 116-126. -/
def defaultPricing : PricingConfig :=
  { price_per_ft := 8.5
    labor_per_ft := 5
    downspout_each := 85
    miter_each := 12
    pitch_multiplier := 1.1
    story_multiplier := 1
    overhead_pct := 0.12
    profit_pct := 0.1
    sales_tax_pct := 0 }

/-- The story-bump test of main.py line 129:
`any(((v or 1) >= 2) for v in totals["stories_by_direction"].values())`.
Non-numeric truthy values (on which Python would raise TypeError) yield
`false` here; the checked model rejects them. -/
def storyBump (stories : Json) : Bool :=
  stories.values.any fun v =>
    match pyOr v (Json.num 1) with
    | .num q => decide (2 ≤ q)
    | _ => false

/-- Python `float(x)` restricted to JSON numbers (numeric strings are not
modelled; the shape predicate excludes them). -/
def Json.toQ : Json → ℚ
  | .num q => q
  | _ => 0

/-- Python `int(x)` on a JSON number: truncation toward zero. -/
def Json.toZ : Json → ℤ
  | .num q => q.num.tdiv (q.den : ℤ)
  | _ => 0

/-- Effective story multiplier: main.py lines 128-130 mutate
`pricing["story_multiplier"]` to 1.10 when the bump condition holds. -/
def effStoryMult (rec : MeasurementRecord) (cfg : PricingConfig) : ℚ :=
  if storyBump rec.stories_by_direction then 1.1 else cfg.story_multiplier

/-- main.py line 132: `eave_ft = float(totals["eave_linear_ft"])`. -/
def eave_ft (rec : MeasurementRecord) : ℚ := rec.eave_linear_ft.toQ

/-- main.py line 133: `ds = int(totals["downspouts"])`. -/
def ds (rec : MeasurementRecord) : ℤ := rec.downspouts.toZ

/-- main.py line 134: `miters = int(...inside...) + int(...outside...)`. -/
def miters (rec : MeasurementRecord) : ℤ :=
  rec.miters_inside.toZ + rec.miters_outside.toZ

/-- main.py line 136: `base_mat = eave_ft * pricing["price_per_ft"]`. -/
def base_mat (rec : MeasurementRecord) (cfg : PricingConfig) : ℚ :=
  eave_ft rec * cfg.price_per_ft

/-- main.py line 137: labor with pitch and (effective) story multipliers. -/
def base_lab (rec : MeasurementRecord) (cfg : PricingConfig) : ℚ :=
  eave_ft rec * cfg.labor_per_ft * cfg.pitch_multiplier * effStoryMult rec cfg

/-- main.py line 138: downspout and miter accessory cost. -/
def accessories (rec : MeasurementRecord) (cfg : PricingConfig) : ℚ :=
  (ds rec : ℚ) * cfg.downspout_each + (miters rec : ℚ) * cfg.miter_each

/-- main.py line 139: `subtotal = base_mat + base_lab + accessories`. -/
def subtotal (rec : MeasurementRecord) (cfg : PricingConfig) : ℚ :=
  base_mat rec cfg + base_lab rec cfg + accessories rec cfg

/-- main.py line 140: `overhead = subtotal * pricing["overhead_pct"]`. -/
def overhead (rec : MeasurementRecord) (cfg : PricingConfig) : ℚ :=
  subtotal rec cfg * cfg.overhead_pct

/-- main.py line 141: `pre_profit = subtotal + overhead`. -/
def pre_profit (rec : MeasurementRecord) (cfg : PricingConfig) : ℚ :=
  subtotal rec cfg + overhead rec cfg

/-- main.py line 142: `profit = pre_profit * pricing["profit_pct"]`. -/
def profit (rec : MeasurementRecord) (cfg : PricingConfig) : ℚ :=
  pre_profit rec cfg * cfg.profit_pct

/-- main.py line 143: `sales_tax = (base_mat + accessories) * pricing["sales_tax_pct"]`. -/
def sales_tax (rec : MeasurementRecord) (cfg : PricingConfig) : ℚ :=
  (base_mat rec cfg + accessories rec cfg) * cfg.sales_tax_pct

/-- main.py line 144: `total = pre_profit + profit + sales_tax`. -/
def total (rec : MeasurementRecord) (cfg : PricingConfig) : ℚ :=
  pre_profit rec cfg + profit rec cfg + sales_tax rec cfg

/-- Python `round(x, 2)` on exact rationals (round half up on ties; no
claim input lands on a tie). -/
def round2 (q : ℚ) : ℚ := (round (100 * q) : ℤ) / 100

/-- Python `round(x, 1)` on exact rationals. -/
def round1 (q : ℚ) : ℚ := (round (10 * q) : ℤ) / 10

/-- One entry of the `line_items` list of the response (main.py 148-156). -/
structure LineItem where
  label : String
  qty : Option ℚ
  uom : Option String
  unit_price : Option ℚ
  amount : ℚ

/-- The `totals` object of the response (main.py line 157). -/
structure EstimateTotals where
  subtotal : ℚ
  total : ℚ

/-- The full response body of main.py lines 146-158. -/
structure EstimateResult where
  inputs : MeasurementRecord
  line_items : List LineItem
  totals : EstimateTotals

/-- The pricing engine: main.py lines 128-158 applied to an extracted
record and a pricing configuration (the source hardcodes
`defaultPricing`). -/
def price (rec : MeasurementRecord) (cfg : PricingConfig) : EstimateResult :=
  { inputs := rec
    line_items :=
      [ { label := "Gutter materials", qty := some (round1 (eave_ft rec)), uom := some "ft"
          unit_price := some cfg.price_per_ft, amount := round2 (base_mat rec cfg) }
      , { label := "Labor", qty := some (round1 (eave_ft rec)), uom := some "ft"
          unit_price := some cfg.labor_per_ft, amount := round2 (base_lab rec cfg) }
      , { label := "Downspouts (" ++ toString (ds rec) ++ ")", qty := some ((ds rec : ℚ))
          uom := some "ea", unit_price := some cfg.downspout_each
          amount := round2 ((ds rec : ℚ) * cfg.downspout_each) }
      , { label := "Miters (" ++ toString (miters rec) ++ ")", qty := some ((miters rec : ℚ))
          uom := some "ea", unit_price := some cfg.miter_each
          amount := round2 ((miters rec : ℚ) * cfg.miter_each) }
      , { label := "Overhead", qty := none, uom := none, unit_price := none
          amount := round2 (overhead rec cfg) }
      , { label := "Profit", qty := none, uom := none, unit_price := none
          amount := round2 (profit rec cfg) }
      , { label := "Sales tax", qty := none, uom := none, unit_price := none
          amount := round2 (sales_tax rec cfg) } ]
    totals := { subtotal := round2 (subtotal rec cfg), total := round2 (total rec cfg) } }

/-- The core operation of main.py lines 105-158: extraction followed by
pricing at the hardcoded configuration. -/
def computeEstimate (data : Json) : EstimateResult :=
  price (extract data) defaultPricing

/-
Checked variants: each site where the Python code could raise on a
malformed value (`.get` on a non-dict, `.values()` on a non-dict,
`float()`/`int()` on a non-number, `>=` between a non-number and an int)
returns `none` instead. A `some` result means the Python code runs the
corresponding step without raising.
-/

/-- Checked `d.get(k, default)`: `none` models the AttributeError Python
raises when `d` is not a dict. -/
def Json.dictGet (j : Json) (k : String) (d : Json) : Option Json :=
  match j with
  | .obj fs => some ((fs.lookup k).getD d)
  | _ => none

/-- Checked `d.values()`: `none` models the AttributeError on non-dicts. -/
def Json.valuesC : Json → Option (List Json)
  | .obj fs => some (fs.map Prod.snd)
  | _ => none

/-- Checked `float(x)`: only JSON numbers are accepted (numeric strings,
which CPython would also parse, lie outside the documented shape and are
not modelled). -/
def Json.toQC : Json → Option ℚ
  | .num q => some q
  | _ => none

/-- Checked `int(x)`: truncation toward zero of a JSON number. -/
def Json.toZC : Json → Option ℤ
  | .num q => some (q.num.tdiv (q.den : ℤ))
  | _ => none

/-- Checked `any(((v or 1) >= 2) for v in vs)` (main.py line 129):
short-circuits like Python `any`, and returns `none` at the TypeError of
comparing a truthy non-number against 2. -/
def anyStoryC : List Json → Option Bool
  | [] => some false
  | v :: vs =>
    match pyOr v (Json.num 1) with
    | .num q => if 2 ≤ q then some true else anyStoryC vs
    | _ => none

/-- Checked form of `(gutter.get("miterCount") or \x7b\x7d).get(k)`
(main.py lines 109-110). -/
def getMiter (gutter : Json) (k : String) : Option Json := do
  let mc ← gutter.dictGet "miterCount" Json.null
  (pyOr mc (Json.obj [])).dictGet k Json.null

/-- Checked form of `(gutter.get("assets") or \x7b\x7d).get("pdfUrl")`
(main.py line 112). -/
def getPdf (gutter : Json) : Option Json := do
  let assets ← gutter.dictGet "assets" Json.null
  (pyOr assets (Json.obj [])).dictGet "pdfUrl" Json.null

/-- Checked extraction (main.py lines 105-113). -/
def extractChecked (data : Json) : Option MeasurementRecord := do
  let gr ← data.dictGet "gutterReport" (Json.obj [])
  let gutter := pyOr gr (Json.obj [])
  let eave ← gutter.dictGet "totalEaveLengthFt" Json.null
  let dsj ← gutter.dictGet "estimatedDownspouts" Json.null
  let mi ← getMiter gutter "inside90"
  let mo ← getMiter gutter "outside90"
  let sb ← gutter.dictGet "storiesByDirection" Json.null
  let pdf ← getPdf gutter
  pure { eave_linear_ft := pyOr eave (Json.num 0)
         downspouts := pyOr dsj (Json.num 0)
         miters_inside := pyOr mi (Json.num 0)
         miters_outside := pyOr mo (Json.num 0)
         stories_by_direction := pyOr sb (Json.obj [])
         pdf_url := pdf }

/-- Checked pricing (main.py lines 128-158): guards each coercion and the
story-bump comparison, then the arithmetic itself (which cannot raise). -/
def priceChecked (rec : MeasurementRecord) (cfg : PricingConfig) : Option EstimateResult := do
  let vs ← rec.stories_by_direction.valuesC
  let _ ← anyStoryC vs
  let _ ← rec.eave_linear_ft.toQC
  let _ ← rec.downspouts.toZC
  let _ ← rec.miters_inside.toZC
  let _ ← rec.miters_outside.toZC
  pure (price rec cfg)

/-- Checked end-to-end computation. -/
def computeEstimateChecked (data : Json) : Option EstimateResult := do
  let r ← extractChecked data
  priceChecked r defaultPricing

/-- A JSON value that is a number or null (or, at a lookup site, absent). -/
def numOrNull : Json → Bool
  | .null => true
  | .num _ => true
  | _ => false

/-- A JSON value that is an object or null. -/
def objOrNull : Json → Bool
  | .null => true
  | .obj _ => true
  | _ => false

/-- The documented shape of the `gutterReport` member (§4.1 of the spec):
null/absent, or an object whose documented fields, where present, are
numbers (measurements), objects (miterCount, storiesByDirection, assets)
or null; story values are numbers or null. Undocumented keys are
unconstrained. -/
def gutterShape (g : Json) : Bool :=
  match g with
  | .null => true
  | .obj gs =>
    numOrNull ((gs.lookup "totalEaveLengthFt").getD Json.null) &&
    numOrNull ((gs.lookup "estimatedDownspouts").getD Json.null) &&
    (match (gs.lookup "miterCount").getD Json.null with
     | .null => true
     | .obj ms =>
       numOrNull ((ms.lookup "inside90").getD Json.null) &&
       numOrNull ((ms.lookup "outside90").getD Json.null)
     | _ => false) &&
    (match (gs.lookup "storiesByDirection").getD Json.null with
     | .null => true
     | .obj ss => ss.all (fun p => numOrNull p.2)
     | _ => false) &&
    objOrNull ((gs.lookup "assets").getD Json.null)
  | _ => false

/-- The documented shape of a raw provider payload: a JSON object whose
`gutterReport` member (when present) has the documented shape. -/
def ShapeValid (data : Json) : Bool :=
  match data with
  | .obj fs => gutterShape ((fs.lookup "gutterReport").getD Json.null)
  | _ => false

/-- A JSON value that is a number. -/
def isNum : Json → Bool
  | .num _ => true
  | _ => false

/-- Shape of a record produced by checked extraction from a shape-valid
payload: numeric measurement fields and an object of numeric-or-null
story values. Exactly what `priceChecked` needs to run without `none`. -/
def RecShape (r : MeasurementRecord) : Bool :=
  isNum r.eave_linear_ft && isNum r.downspouts &&
  isNum r.miters_inside && isNum r.miters_outside &&
  (match r.stories_by_direction with
   | .obj ss => ss.all fun p => numOrNull p.2
   | _ => false)

/-- The §3 data-model predicate on extracted story values: every value of
`stories_by_direction` is an integer at least 1. -/
def storiesAllGEOne (rec : MeasurementRecord) : Bool :=
  rec.stories_by_direction.values.all fun v =>
    match v with
    | .num q => q.den == 1 && decide (1 ≤ q.num)
    | _ => false

/-- The `gutterReport` member of the spec §8 scenario payload. -/
def gutterScenario : List (String × Json) :=
  [ ("totalEaveLengthFt", Json.num 100)
  , ("estimatedDownspouts", Json.num 4)
  , ("miterCount", Json.obj [("inside90", Json.num 2), ("outside90", Json.num 1)])
  , ("storiesByDirection", Json.obj [("N", Json.num 1), ("S", Json.num 2)]) ]

/-- The concrete payload of the spec §8 scenario (claim C1). -/
def rawScenario : Json :=
  Json.obj [("gutterReport", Json.obj gutterScenario)]

/-- The extracted record of the §8 scenario payload. -/
def recScenario : MeasurementRecord :=
  { eave_linear_ft := Json.num 100
    downspouts := Json.num 4
    miters_inside := Json.num 2
    miters_outside := Json.num 1
    stories_by_direction := Json.obj [("N", Json.num 1), ("S", Json.num 2)]
    pdf_url := Json.null }

/-- The all-default record produced for empty/null payloads. -/
def zeroRecord : MeasurementRecord :=
  { eave_linear_ft := Json.num 0
    downspouts := Json.num 0
    miters_inside := Json.num 0
    miters_outside := Json.num 0
    stories_by_direction := Json.obj []
    pdf_url := Json.null }

/-- A payload whose storiesByDirection carries a story count of 0: the
extractor copies it through unvalidated. -/
def rawZeroStory : Json :=
  Json.obj [("gutterReport", Json.obj
    [("storiesByDirection", Json.obj [("N", Json.num 0)])])]

/-- A pricing configuration that agrees with `defaultPricing` on the
materials and accessory rates and the tax rate, but not on the labor rate
or the pitch/story multipliers. -/
def laborBumpPricing : PricingConfig :=
  { defaultPricing with labor_per_ft := 99, pitch_multiplier := 2, story_multiplier := 7 }

/-- Replace the first binding of key `k` in an association list (append a
new binding when the key is absent). -/
def setKey : List (String × Json) → String → Json → List (String × Json)
  | [], k, v => [(k, v)]
  | (k0, v0) :: fs, k, v =>
    if k0 = k then (k, v) :: fs else (k0, v0) :: setKey fs k v

/-- Overwrite the `gutterReport.assets.pdfUrl` member of a payload with a
new value (creating `assets`/`pdfUrl` when absent), leaving every other
member intact. Payloads without an object-valued `gutterReport` are
returned unchanged. -/
def setPdfUrl (data : Json) (v : Json) : Json :=
  match data with
  | .obj fs =>
    match (fs.lookup "gutterReport").getD Json.null with
    | .obj gs =>
      let newAssets : List (String × Json) :=
        match (gs.lookup "assets").getD Json.null with
        | .obj as0 => setKey as0 "pdfUrl" v
        | _ => [("pdfUrl", v)]
      Json.obj (setKey fs "gutterReport"
        (Json.obj (setKey gs "assets" (Json.obj newAssets))))
    | _ => data
  | _ => data

end GutterAPI

/-
Helper lemmas.
-/

namespace GutterAPI

/-- Coalescing an object against the empty-object default is the
identity on objects (the empty object is falsy but equals the default). -/
theorem pyOr_obj_nil (fs : List (String × Json)) :
    pyOr (Json.obj fs) (Json.obj []) = Json.obj fs := by
  cases fs <;> simp [pyOr, Json.truthy]

/-- Coalescing a number-or-null value against a numeric default yields a
number. -/
theorem pyOr_num_shape (v : Json) (c : ℚ) (h : numOrNull v = true) :
    ∃ q : ℚ, pyOr v (Json.num c) = Json.num q := by
  cases v with
  | null => exact ⟨c, rfl⟩
  | num q =>
    by_cases hq : (Json.num q).truthy
    · exact ⟨q, by simp [pyOr, hq]⟩
    · exact ⟨c, by simp [pyOr, hq]⟩
  | bool b => simp [numOrNull] at h
  | str s => simp [numOrNull] at h
  | arr xs => simp [numOrNull] at h
  | obj fs => simp [numOrNull] at h

/-- Coalescing an object-or-null value against the empty-object default
yields an object. -/
theorem pyOr_obj_shape (v : Json) (h : objOrNull v = true) :
    ∃ fs, pyOr v (Json.obj []) = Json.obj fs := by
  cases v with
  | null => exact ⟨[], rfl⟩
  | obj fs => exact ⟨fs, pyOr_obj_nil fs⟩
  | bool b => simp [objOrNull] at h
  | str s => simp [objOrNull] at h
  | arr xs => simp [objOrNull] at h
  | num q => simp [objOrNull] at h

/-- A value satisfying `isNum` is a `Json.num`. -/
theorem isNum_shape (v : Json) (h : isNum v = true) : ∃ q : ℚ, v = Json.num q := by
  cases v with
  | num q => exact ⟨q, rfl⟩
  | null => simp [isNum] at h
  | bool b => simp [isNum] at h
  | str s => simp [isNum] at h
  | arr xs => simp [isNum] at h
  | obj fs => simp [isNum] at h

/-- The checked story-bump scan succeeds on number-or-null values. -/
theorem anyStoryC_isSome (vs : List Json) (h : ∀ v ∈ vs, numOrNull v = true) :
    (anyStoryC vs).isSome = true := by
  induction vs with
  | nil => rfl
  | cons v vs ih =>
    obtain ⟨q, hq⟩ := pyOr_num_shape v 1 (h v (List.mem_cons_self v vs))
    simp only [anyStoryC, hq]
    split
    · rfl
    · exact ih fun w hw => h w (List.mem_cons_of_mem v hw)

/-- A shape-valid `gutterReport` member normalizes, through the
`or \x7b\x7d` coalescing, to an object that is itself shape-valid. -/
theorem gutter_normalize (o : Option Json)
    (h : gutterShape (o.getD Json.null) = true) :
    ∃ gs, pyOr (o.getD (Json.obj [])) (Json.obj []) = Json.obj gs
      ∧ gutterShape (Json.obj gs) = true := by
  cases o with
  | none => exact ⟨[], rfl, rfl⟩
  | some g =>
    cases g with
    | null => exact ⟨[], rfl, rfl⟩
    | obj gs => exact ⟨gs, pyOr_obj_nil gs, h⟩
    | bool b => simp [gutterShape, Option.getD] at h
    | str s => simp [gutterShape, Option.getD] at h
    | arr xs => simp [gutterShape, Option.getD] at h
    | num q => simp [gutterShape, Option.getD] at h

/-- Coalescing a number-or-null value against a numeric default satisfies
`isNum`. -/
theorem isNum_pyOr (v : Json) (c : ℚ) (h : numOrNull v = true) :
    isNum (pyOr v (Json.num c)) = true := by
  obtain ⟨q, hq⟩ := pyOr_num_shape v c h
  rw [hq]
  rfl

/-- Checked miter lookup on an object gutter whose miterCount coalesces
to an object. -/
theorem getMiter_eq (gs ms : List (String × Json)) (k : String)
    (hms : pyOr ((gs.lookup "miterCount").getD Json.null) (Json.obj []) = Json.obj ms) :
    getMiter (Json.obj gs) k = some ((ms.lookup k).getD Json.null) := by
  simp [getMiter, Json.dictGet, hms]

/-- Checked pdfUrl lookup on an object gutter whose assets coalesces to
an object. -/
theorem getPdf_eq (gs as0 : List (String × Json))
    (has : pyOr ((gs.lookup "assets").getD Json.null) (Json.obj []) = Json.obj as0) :
    getPdf (Json.obj gs) = some ((as0.lookup "pdfUrl").getD Json.null) := by
  simp [getPdf, Json.dictGet, has]

/-- Checked extraction evaluated on an object payload whose nested
members coalesce to objects. -/
theorem extractChecked_obj (fs gs ms ss as0 : List (String × Json))
    (hg : pyOr ((fs.lookup "gutterReport").getD (Json.obj [])) (Json.obj []) = Json.obj gs)
    (hms : pyOr ((gs.lookup "miterCount").getD Json.null) (Json.obj []) = Json.obj ms)
    (hss : pyOr ((gs.lookup "storiesByDirection").getD Json.null) (Json.obj []) = Json.obj ss)
    (has : pyOr ((gs.lookup "assets").getD Json.null) (Json.obj []) = Json.obj as0) :
    extractChecked (Json.obj fs) = some
      { eave_linear_ft := pyOr ((gs.lookup "totalEaveLengthFt").getD Json.null) (Json.num 0)
        downspouts := pyOr ((gs.lookup "estimatedDownspouts").getD Json.null) (Json.num 0)
        miters_inside := pyOr ((ms.lookup "inside90").getD Json.null) (Json.num 0)
        miters_outside := pyOr ((ms.lookup "outside90").getD Json.null) (Json.num 0)
        stories_by_direction := Json.obj ss
        pdf_url := (as0.lookup "pdfUrl").getD Json.null } := by
  simp [extractChecked, Json.dictGet, hg, getMiter_eq gs ms _ hms, getPdf_eq gs as0 has, hss]

/-- Checked extraction succeeds on every shape-valid payload, and the
record it produces has numeric fields and an object of number-or-null
story values. -/
theorem extractChecked_some (data : Json) (h : ShapeValid data = true) :
    ∃ r, extractChecked data = some r ∧ RecShape r = true := by
  cases data with
  | obj fs =>
    unfold ShapeValid at h
    obtain ⟨gs, hg, hgs⟩ := gutter_normalize (fs.lookup "gutterReport") h
    simp only [gutterShape, Bool.and_eq_true] at hgs
    obtain ⟨⟨⟨⟨he, hd⟩, hmc⟩, hsb⟩, ha⟩ := hgs
    have hmc2 : ∃ ms, pyOr ((gs.lookup "miterCount").getD Json.null) (Json.obj []) = Json.obj ms
        ∧ numOrNull ((ms.lookup "inside90").getD Json.null) = true
        ∧ numOrNull ((ms.lookup "outside90").getD Json.null) = true := by
      cases hmcv : (gs.lookup "miterCount").getD Json.null with
      | null => exact ⟨[], rfl, rfl, rfl⟩
      | obj ms =>
        rw [hmcv] at hmc
        simp only [Bool.and_eq_true] at hmc
        exact ⟨ms, pyOr_obj_nil ms, hmc.1, hmc.2⟩
      | bool b => rw [hmcv] at hmc; simp at hmc
      | num q => rw [hmcv] at hmc; simp at hmc
      | str s => rw [hmcv] at hmc; simp at hmc
      | arr xs => rw [hmcv] at hmc; simp at hmc
    have hsb2 : ∃ ss,
        pyOr ((gs.lookup "storiesByDirection").getD Json.null) (Json.obj []) = Json.obj ss
        ∧ ss.all (fun p => numOrNull p.2) = true := by
      cases hsbv : (gs.lookup "storiesByDirection").getD Json.null with
      | null => exact ⟨[], rfl, rfl⟩
      | obj ss => rw [hsbv] at hsb; exact ⟨ss, pyOr_obj_nil ss, hsb⟩
      | bool b => rw [hsbv] at hsb; simp at hsb
      | num q => rw [hsbv] at hsb; simp at hsb
      | str s => rw [hsbv] at hsb; simp at hsb
      | arr xs => rw [hsbv] at hsb; simp at hsb
    obtain ⟨ms, hms, hmi, hmo⟩ := hmc2
    obtain ⟨ss, hss, hssall⟩ := hsb2
    obtain ⟨as0, has⟩ := pyOr_obj_shape _ ha
    refine ⟨_, extractChecked_obj fs gs ms ss as0 hg hms hss has, ?_⟩
    simp only [RecShape, Bool.and_eq_true]
    exact ⟨⟨⟨⟨isNum_pyOr _ _ he, isNum_pyOr _ _ hd⟩, isNum_pyOr _ _ hmi⟩,
      isNum_pyOr _ _ hmo⟩, hssall⟩
  | null => simp [ShapeValid] at h
  | bool b => simp [ShapeValid] at h
  | num q => simp [ShapeValid] at h
  | str s => simp [ShapeValid] at h
  | arr xs => simp [ShapeValid] at h

/-- Checked pricing succeeds on every record of the shape produced by
checked extraction from a shape-valid payload. -/
theorem priceChecked_some (r : MeasurementRecord) (cfg : PricingConfig)
    (h : RecShape r = true) : (priceChecked r cfg).isSome = true := by
  obtain ⟨e, d, mi, mo, sb, pdf⟩ := r
  simp only [RecShape, Bool.and_eq_true] at h
  obtain ⟨⟨⟨⟨he, hd⟩, hmi⟩, hmo⟩, hsb⟩ := h
  obtain ⟨qe, rfl⟩ := isNum_shape _ he
  obtain ⟨qd, rfl⟩ := isNum_shape _ hd
  obtain ⟨qmi, rfl⟩ := isNum_shape _ hmi
  obtain ⟨qmo, rfl⟩ := isNum_shape _ hmo
  cases sb with
  | obj ss =>
    have hv : ∀ v ∈ ss.map Prod.snd, numOrNull v = true := by
      intro v hv
      obtain ⟨p, hp, rfl⟩ := List.mem_map.mp hv
      exact List.all_eq_true.mp hsb p hp
    obtain ⟨b, hb⟩ := Option.isSome_iff_exists.mp (anyStoryC_isSome _ hv)
    simp [priceChecked, Json.valuesC, Json.toQC, Json.toZC, hb]
  | null => simp at hsb
  | bool b => simp at hsb
  | num q => simp at hsb
  | str s => simp at hsb
  | arr xs => simp at hsb

/-- Looking up the key just set by `setKey` returns the new value. -/
theorem lookup_setKey_self (fs : List (String × Json)) (k : String) (v : Json) :
    (setKey fs k v).lookup k = some v := by
  induction fs with
  | nil => simp [setKey, List.lookup]
  | cons p fs ih =>
    obtain ⟨k0, v0⟩ := p
    by_cases h : k0 = k
    · subst h
      simp [setKey, List.lookup]
    · have hk : (k == k0) = false := by simp [Ne.symm h]
      simp [setKey, h, List.lookup, hk, ih]

/-- Looking up any other key after `setKey` is unchanged. -/
theorem lookup_setKey_ne (fs : List (String × Json)) (k kq : String) (v : Json)
    (h : kq ≠ k) :
    (setKey fs k v).lookup kq = fs.lookup kq := by
  induction fs with
  | nil =>
    have hk : (kq == k) = false := by simp [h]
    simp [setKey, List.lookup, hk]
  | cons p fs ih =>
    obtain ⟨k0, v0⟩ := p
    by_cases h0 : k0 = k
    · subst h0
      have hk : (kq == k0) = false := by simp [h]
      simp [setKey, List.lookup, hk]
    · cases hq : kq == k0 <;> simp [setKey, h0, List.lookup, hq, ih]

/-- Replacing the `assets` member inside an object-valued `gutterReport`
leaves every other extracted field unchanged. -/
theorem extract_gutter_set (fs gs : List (String × Json)) (a : Json)
    (hfs : fs.lookup "gutterReport" = some (Json.obj gs)) :
    (extract (Json.obj (setKey fs "gutterReport"
        (Json.obj (setKey gs "assets" a))))).eave_linear_ft
      = (extract (Json.obj fs)).eave_linear_ft
    ∧ (extract (Json.obj (setKey fs "gutterReport"
        (Json.obj (setKey gs "assets" a))))).downspouts
      = (extract (Json.obj fs)).downspouts
    ∧ (extract (Json.obj (setKey fs "gutterReport"
        (Json.obj (setKey gs "assets" a))))).miters_inside
      = (extract (Json.obj fs)).miters_inside
    ∧ (extract (Json.obj (setKey fs "gutterReport"
        (Json.obj (setKey gs "assets" a))))).miters_outside
      = (extract (Json.obj fs)).miters_outside
    ∧ (extract (Json.obj (setKey fs "gutterReport"
        (Json.obj (setKey gs "assets" a))))).stories_by_direction
      = (extract (Json.obj fs)).stories_by_direction := by
  simp only [extract, Json.getD, hfs, lookup_setKey_self, Option.getD_some, pyOr_obj_nil,
    lookup_setKey_ne gs "assets" "totalEaveLengthFt" a (by decide),
    lookup_setKey_ne gs "assets" "estimatedDownspouts" a (by decide),
    lookup_setKey_ne gs "assets" "miterCount" a (by decide),
    lookup_setKey_ne gs "assets" "storiesByDirection" a (by decide)]
  simp

/-- Overwriting `gutterReport.assets.pdfUrl` leaves every extracted field
other than `pdf_url` unchanged. -/
theorem extract_setPdfUrl (data v : Json) :
    (extract (setPdfUrl data v)).eave_linear_ft = (extract data).eave_linear_ft
    ∧ (extract (setPdfUrl data v)).downspouts = (extract data).downspouts
    ∧ (extract (setPdfUrl data v)).miters_inside = (extract data).miters_inside
    ∧ (extract (setPdfUrl data v)).miters_outside = (extract data).miters_outside
    ∧ (extract (setPdfUrl data v)).stories_by_direction
      = (extract data).stories_by_direction := by
  cases data with
  | obj fs =>
    cases hfs : fs.lookup "gutterReport" with
    | none => simp [setPdfUrl, hfs]
    | some g =>
      cases g with
      | obj gs =>
        have hset : setPdfUrl (Json.obj fs) v = Json.obj (setKey fs "gutterReport"
            (Json.obj (setKey gs "assets" (Json.obj
              (match (gs.lookup "assets").getD Json.null with
               | .obj as0 => setKey as0 "pdfUrl" v
               | _ => [("pdfUrl", v)]))))) := by
          simp [setPdfUrl, hfs]
        rw [hset]
        exact extract_gutter_set fs gs _ hfs
      | null => simp [setPdfUrl, hfs]
      | bool b => simp [setPdfUrl, hfs]
      | num q => simp [setPdfUrl, hfs]
      | str s => simp [setPdfUrl, hfs]
      | arr xs => simp [setPdfUrl, hfs]
  | null => exact ⟨rfl, rfl, rfl, rfl, rfl⟩
  | bool b => exact ⟨rfl, rfl, rfl, rfl, rfl⟩
  | num q => exact ⟨rfl, rfl, rfl, rfl, rfl⟩
  | str s => exact ⟨rfl, rfl, rfl, rfl, rfl⟩
  | arr xs => exact ⟨rfl, rfl, rfl, rfl, rfl⟩

/-- The priced line items and totals depend only on the measurement
fields, never on `pdf_url`. -/
theorem price_ignores_pdf (r1 r2 : MeasurementRecord) (cfg : PricingConfig)
    (he : r1.eave_linear_ft = r2.eave_linear_ft)
    (hd : r1.downspouts = r2.downspouts)
    (hmi : r1.miters_inside = r2.miters_inside)
    (hmo : r1.miters_outside = r2.miters_outside)
    (hs : r1.stories_by_direction = r2.stories_by_direction) :
    (price r1 cfg).line_items = (price r2 cfg).line_items
    ∧ (price r1 cfg).totals = (price r2 cfg).totals := by
  obtain ⟨e1, d1, i1, o1, s1, p1⟩ := r1
  obtain ⟨e2, d2, i2, o2, s2, p2⟩ := r2
  simp only at he hd hmi hmo hs
  subst he
  subst hd
  subst hmi
  subst hmo
  subst hs
  exact ⟨rfl, rfl⟩

end GutterAPI

/-
Claim theorems.
-/

namespace GutterAPI

/-- C1: for the spec §8 scenario payload and the default pricing config,
`computeEstimate` returns line-item amounts materials 850.00, labor
605.00, downspouts 340.00, miters 36.00, overhead 219.72, profit 205.07,
sales tax 0.00, with subtotal 1831.00 and total 2255.79 (amounts rounded
to two decimals at output). -/
theorem scenario_estimate :
    (computeEstimate rawScenario).line_items.map LineItem.amount
      = [850, 605, 340, 36, 219.72, 205.07, 0]
    ∧ (computeEstimate rawScenario).totals.subtotal = 1831
    ∧ (computeEstimate rawScenario).totals.total = 2255.79 := by
  have h : extract rawScenario = recScenario := rfl
  unfold computeEstimate
  rw [h]
  norm_num [price, subtotal, base_mat, base_lab, accessories, eave_ft, ds, miters, effStoryMult,
    overhead, pre_profit, profit, sales_tax, total, defaultPricing, round2, round_eq,
    recScenario, Json.toQ, Json.toZ, storyBump, Json.values, pyOr, Json.truthy]

/-- C2: for every record, the labor line uses the effective story
multiplier 1.10 exactly when some story value v satisfies
(v or 1) >= 2, and the configured base 1.00 otherwise; the materials
amount and the accessories amount are computed without any multiplier. -/
theorem story_multiplier_rule (rec : MeasurementRecord) :
    base_lab rec defaultPricing
      = eave_ft rec * defaultPricing.labor_per_ft * defaultPricing.pitch_multiplier *
          (if (rec.stories_by_direction.values.any fun v =>
                match pyOr v (Json.num 1) with
                | .num q => decide (2 ≤ q)
                | _ => false)
           then 1.1 else 1)
    ∧ base_mat rec defaultPricing = eave_ft rec * defaultPricing.price_per_ft
    ∧ accessories rec defaultPricing
      = (ds rec : ℚ) * defaultPricing.downspout_each
        + (miters rec : ℚ) * defaultPricing.miter_each :=
  ⟨rfl, rfl, rfl⟩

/-- C3: for any two payloads with equal extracted quantities and any two
configurations agreeing on the materials, accessory and tax rates (labor
rate and pitch/story multipliers arbitrary), the sales tax is identical
and equals (base materials + accessories) * sales_tax_pct: labor is
excluded from the tax base. -/
theorem tax_excludes_labor (raw1 raw2 : Json) (cfg1 cfg2 : PricingConfig)
    (he : eave_ft (extract raw1) = eave_ft (extract raw2))
    (hd : ds (extract raw1) = ds (extract raw2))
    (hmi : (extract raw1).miters_inside.toZ = (extract raw2).miters_inside.toZ)
    (hmo : (extract raw1).miters_outside.toZ = (extract raw2).miters_outside.toZ)
    (hp : cfg1.price_per_ft = cfg2.price_per_ft)
    (hde : cfg1.downspout_each = cfg2.downspout_each)
    (hme : cfg1.miter_each = cfg2.miter_each)
    (ht : cfg1.sales_tax_pct = cfg2.sales_tax_pct) :
    sales_tax (extract raw1) cfg1 = sales_tax (extract raw2) cfg2
    ∧ sales_tax (extract raw1) cfg1
      = (base_mat (extract raw1) cfg1 + accessories (extract raw1) cfg1)
          * cfg1.sales_tax_pct := by
  constructor
  · unfold sales_tax base_mat accessories miters
    rw [he, hd, hmi, hmo, hp, hde, hme, ht]
  · rfl

/-- C3 witness: the scenario payload priced under the default config and
under a config with different labor rate and multipliers yields the same
sales tax. -/
theorem tax_excludes_labor_witness :
    eave_ft (extract rawScenario) = eave_ft (extract rawScenario)
    ∧ ds (extract rawScenario) = ds (extract rawScenario)
    ∧ (extract rawScenario).miters_inside.toZ = (extract rawScenario).miters_inside.toZ
    ∧ (extract rawScenario).miters_outside.toZ = (extract rawScenario).miters_outside.toZ
    ∧ defaultPricing.price_per_ft = laborBumpPricing.price_per_ft
    ∧ defaultPricing.downspout_each = laborBumpPricing.downspout_each
    ∧ defaultPricing.miter_each = laborBumpPricing.miter_each
    ∧ defaultPricing.sales_tax_pct = laborBumpPricing.sales_tax_pct
    ∧ (sales_tax (extract rawScenario) defaultPricing
        = sales_tax (extract rawScenario) laborBumpPricing
      ∧ sales_tax (extract rawScenario) defaultPricing
        = (base_mat (extract rawScenario) defaultPricing
            + accessories (extract rawScenario) defaultPricing)
            * defaultPricing.sales_tax_pct) :=
  ⟨rfl, rfl, rfl, rfl, rfl, rfl, rfl, rfl,
    tax_excludes_labor rawScenario rawScenario defaultPricing laborBumpPricing
      rfl rfl rfl rfl rfl rfl rfl rfl⟩

/-- C4: the payloads with gutterReport null, absent, and empty all
extract to the identical all-default record (eave 0, downspouts 0,
miters 0, stories empty, pdf_url null). -/
theorem null_payloads_extract_default :
    extract (Json.obj [("gutterReport", Json.null)]) = zeroRecord
    ∧ extract (Json.obj []) = zeroRecord
    ∧ extract (Json.obj [("gutterReport", Json.obj [])]) = zeroRecord :=
  ⟨rfl, rfl, rfl⟩

/-- C5: on every payload matching the documented shape, the checked
extraction-plus-pricing pipeline (which returns none at every site where
the Python code could raise) produces a result: the core never raises. -/
theorem core_never_raises (data : Json) (h : ShapeValid data = true) :
    (computeEstimateChecked data).isSome = true := by
  obtain ⟨r, hr, hshape⟩ := extractChecked_some data h
  have hp := priceChecked_some r defaultPricing hshape
  simpa [computeEstimateChecked, hr] using hp

/-- C5 witness: the scenario payload is shape-valid and the checked
pipeline succeeds on it. -/
theorem core_never_raises_witness :
    ShapeValid rawScenario = true
    ∧ (computeEstimateChecked rawScenario).isSome = true :=
  ⟨rfl, core_never_raises rawScenario rfl⟩

/-- C6 counterexample: the payload with story count 0 extracts to a
record whose stories_by_direction value is not an integer at least 1, so
the claimed invariant fails on the code as written. -/
theorem stories_ge_one_counterexample :
    storiesAllGEOne (extract rawZeroStory) = false := rfl

/-- C6 (amended): extraction copies the payload's storiesByDirection
object through verbatim and unvalidated, so the record's values are
integers at least 1 exactly when the payload supplies such values: for a
payload whose gutterReport member carries a storiesByDirection object
whose values are all integers at least 1, the extracted record holds
that same object and satisfies the invariant. -/
theorem stories_ge_one_preserved (fs gs ss : List (String × Json))
    (hg : fs.lookup "gutterReport" = some (Json.obj gs))
    (hs : gs.lookup "storiesByDirection" = some (Json.obj ss))
    (hall : (ss.all fun p =>
        match p.2 with
        | Json.num q => q.den == 1 && decide (1 ≤ q.num)
        | _ => false) = true) :
    (extract (Json.obj fs)).stories_by_direction = Json.obj ss
    ∧ storiesAllGEOne (extract (Json.obj fs)) = true := by
  have hrec : (extract (Json.obj fs)).stories_by_direction = Json.obj ss := by
    simp only [extract, Json.getD, hg, Option.getD_some, pyOr_obj_nil, hs]
  refine ⟨hrec, ?_⟩
  unfold storiesAllGEOne
  rw [hrec]
  show (ss.map Prod.snd).all _ = true
  refine List.all_eq_true.mpr ?_
  intro v hv
  obtain ⟨p, hp, rfl⟩ := List.mem_map.mp hv
  exact List.all_eq_true.mp hall p hp

/-- C6 witness: the scenario payload carries story values 1 and 2 under
gutterReport.storiesByDirection, and its extracted record holds that
same object and satisfies the invariant. -/
theorem stories_ge_one_preserved_witness :
    [("gutterReport", Json.obj gutterScenario)].lookup "gutterReport"
        = some (Json.obj gutterScenario)
    ∧ gutterScenario.lookup "storiesByDirection"
        = some (Json.obj [("N", Json.num 1), ("S", Json.num 2)])
    ∧ ([("N", Json.num 1), ("S", Json.num 2)].all fun p =>
        match p.2 with
        | Json.num q => q.den == 1 && decide (1 ≤ q.num)
        | _ => false) = true
    ∧ ((extract (Json.obj [("gutterReport", Json.obj gutterScenario)])).stories_by_direction
          = Json.obj [("N", Json.num 1), ("S", Json.num 2)]
      ∧ storiesAllGEOne (extract (Json.obj [("gutterReport", Json.obj gutterScenario)])) = true) :=
  ⟨rfl, rfl, rfl,
    stories_ge_one_preserved [("gutterReport", Json.obj gutterScenario)] gutterScenario
      [("N", Json.num 1), ("S", Json.num 2)] rfl rfl rfl⟩

/-- C7: for non-negative extracted quantities and non-negative pricing
rates, the unrounded intermediate values satisfy
subtotal ≤ pre_profit ≤ total. -/
theorem subtotal_le_total (rec : MeasurementRecord) (cfg : PricingConfig)
    (he : 0 ≤ eave_ft rec) (hds : 0 ≤ ds rec)
    (hmi : 0 ≤ rec.miters_inside.toZ) (hmo : 0 ≤ rec.miters_outside.toZ)
    (h1 : 0 ≤ cfg.price_per_ft) (h2 : 0 ≤ cfg.labor_per_ft) (h3 : 0 ≤ cfg.downspout_each)
    (h4 : 0 ≤ cfg.miter_each) (h5 : 0 ≤ cfg.pitch_multiplier) (h6 : 0 ≤ cfg.story_multiplier)
    (h7 : 0 ≤ cfg.overhead_pct) (h8 : 0 ≤ cfg.profit_pct) (h9 : 0 ≤ cfg.sales_tax_pct) :
    subtotal rec cfg ≤ pre_profit rec cfg ∧ pre_profit rec cfg ≤ total rec cfg := by
  have hsm : 0 ≤ effStoryMult rec cfg := by
    unfold effStoryMult
    split
    · norm_num
    · exact h6
  have hmat : 0 ≤ base_mat rec cfg := mul_nonneg he h1
  have hlab : 0 ≤ base_lab rec cfg :=
    mul_nonneg (mul_nonneg (mul_nonneg he h2) h5) hsm
  have hdq : (0:ℚ) ≤ (ds rec : ℚ) := by exact_mod_cast hds
  have hmq : (0:ℚ) ≤ (miters rec : ℚ) := by
    have hm : 0 ≤ miters rec := add_nonneg hmi hmo
    exact_mod_cast hm
  have hacc : 0 ≤ accessories rec cfg :=
    add_nonneg (mul_nonneg hdq h3) (mul_nonneg hmq h4)
  have hsub : 0 ≤ subtotal rec cfg := add_nonneg (add_nonneg hmat hlab) hacc
  have hov : 0 ≤ overhead rec cfg := mul_nonneg hsub h7
  have hpre : 0 ≤ pre_profit rec cfg := add_nonneg hsub hov
  have hpr : 0 ≤ profit rec cfg := mul_nonneg hpre h8
  have htx : 0 ≤ sales_tax rec cfg := mul_nonneg (add_nonneg hmat hacc) h9
  constructor
  · show subtotal rec cfg ≤ subtotal rec cfg + overhead rec cfg
    linarith
  · show pre_profit rec cfg ≤ pre_profit rec cfg + profit rec cfg + sales_tax rec cfg
    linarith

/-- C7 witness: the all-zero record under the default config satisfies
the hypotheses and the monotonicity conclusion. -/
theorem subtotal_le_total_witness :
    (0:ℚ) ≤ eave_ft zeroRecord
    ∧ (0:ℤ) ≤ ds zeroRecord
    ∧ (0:ℤ) ≤ zeroRecord.miters_inside.toZ
    ∧ (0:ℤ) ≤ zeroRecord.miters_outside.toZ
    ∧ (0:ℚ) ≤ defaultPricing.price_per_ft
    ∧ (0:ℚ) ≤ defaultPricing.labor_per_ft
    ∧ (0:ℚ) ≤ defaultPricing.downspout_each
    ∧ (0:ℚ) ≤ defaultPricing.miter_each
    ∧ (0:ℚ) ≤ defaultPricing.pitch_multiplier
    ∧ (0:ℚ) ≤ defaultPricing.story_multiplier
    ∧ (0:ℚ) ≤ defaultPricing.overhead_pct
    ∧ (0:ℚ) ≤ defaultPricing.profit_pct
    ∧ (0:ℚ) ≤ defaultPricing.sales_tax_pct
    ∧ (subtotal zeroRecord defaultPricing ≤ pre_profit zeroRecord defaultPricing
      ∧ pre_profit zeroRecord defaultPricing ≤ total zeroRecord defaultPricing) := by
  refine ⟨by norm_num [eave_ft, zeroRecord, Json.toQ], by decide, by decide, by decide,
    by norm_num [defaultPricing], by norm_num [defaultPricing], by norm_num [defaultPricing],
    by norm_num [defaultPricing], by norm_num [defaultPricing], by norm_num [defaultPricing],
    by norm_num [defaultPricing], by norm_num [defaultPricing], by norm_num [defaultPricing],
    subtotal_le_total zeroRecord defaultPricing
      (by norm_num [eave_ft, zeroRecord, Json.toQ]) (by decide) (by decide) (by decide)
      (by norm_num [defaultPricing]) (by norm_num [defaultPricing]) (by norm_num [defaultPricing])
      (by norm_num [defaultPricing]) (by norm_num [defaultPricing]) (by norm_num [defaultPricing])
      (by norm_num [defaultPricing]) (by norm_num [defaultPricing]) (by norm_num [defaultPricing])⟩

/-- C8: pricing the all-zero record yields seven zero line-item amounts
and zero subtotal and total, under every pricing configuration. -/
theorem zero_record_zero_estimate (cfg : PricingConfig) :
    (price zeroRecord cfg).line_items.map LineItem.amount = [0, 0, 0, 0, 0, 0, 0]
    ∧ (price zeroRecord cfg).totals.subtotal = 0
    ∧ (price zeroRecord cfg).totals.total = 0 := by
  have h1 : eave_ft zeroRecord = 0 := rfl
  have h2 : ds zeroRecord = 0 := rfl
  have h3 : miters zeroRecord = 0 := rfl
  simp [price, subtotal, base_mat, base_lab, accessories, overhead, pre_profit, profit,
    sales_tax, total, h1, h2, h3, round2]

/-- C9: for every record and configuration the output has exactly seven
line items in the fixed order materials, labor, downspouts, miters,
overhead, profit, sales tax, with the downspout and miter counts embedded
in their labels; zero-amount lines are emitted like any other. -/
theorem line_items_shape (rec : MeasurementRecord) (cfg : PricingConfig) :
    (price rec cfg).line_items.length = 7
    ∧ (price rec cfg).line_items.map LineItem.label
      = [ "Gutter materials", "Labor"
        , "Downspouts (" ++ toString (ds rec) ++ ")"
        , "Miters (" ++ toString (miters rec) ++ ")"
        , "Overhead", "Profit", "Sales tax" ] :=
  ⟨rfl, rfl⟩

/-- C10: overwriting gutterReport.assets.pdfUrl with any value changes
neither the line items nor the totals of the computed estimate: pdf_url
influences only the echoed inputs. -/
theorem pdf_url_no_influence (data v : Json) :
    (computeEstimate (setPdfUrl data v)).line_items = (computeEstimate data).line_items
    ∧ (computeEstimate (setPdfUrl data v)).totals = (computeEstimate data).totals := by
  obtain ⟨he, hd, hmi, hmo, hs⟩ := extract_setPdfUrl data v
  exact price_ignores_pdf _ _ defaultPricing he hd hmi hmo hs

end GutterAPI
